/-
Verification of the GoodBooks API (src/app/main.py) and its data loader
(src/ingest/loaddata.py) against the natural-language specification.

Shallow embedding conventions:
- MongoDB collections are Lean lists of document structures; `find` is
  `List.filter`, `find_one` is `List.find?`, `count_documents` is the length
  of the filtered list, `skip`/`limit` are `List.drop`/`List.take`.
- Python ints are `Int`, floats are idealized as exact rationals `ℚ`.
- Mongo `$regex` patterns are modelled for the fragment actually exercised
  by the code: the handlers interpolate a raw parameter string into the
  pattern, so the model compiles a pattern string into a token sequence
  covering literal characters and the `.` wildcard; patterns using other
  PCRE metacharacters fall outside the modelled fragment and compile to
  `none`.
- HTTP errors raised via `HTTPException(status_code, detail)` are an
  `HTTPError` value in an `Except`.
-/
import Mathlib

namespace GoodBooks

/-! ### Mongo `$regex` fragment (literal characters and `.`), case-insensitive

`list_books` builds the pattern `f"^{tag}$"` and `author_books` builds
`f"^{author_name}$"` (exact) or the raw name (substring search), always with
`$options: "i"`. The interpolated parameter is raw PCRE text, so we model
PCRE matching restricted to the fragment of patterns whose characters are
literals or the any-character wildcard `.` (which in PCRE matches any
character except a newline). A fully anchored pattern `^body$` then matches
a string iff the token sequence of `body` matches the whole string; an
unanchored pattern matches iff some substring matches. -/

/-- PCRE metacharacters (outside character classes). A parameter character in
this list other than `.` takes the pattern outside the modelled fragment. -/
def regexMetaChars : List Char := "\\^$.|?*+()[]\x7b\x7d".data

def isRegexMeta (c : Char) : Bool := regexMetaChars.contains c

/-- One single-character regex token of the modelled fragment. -/
inductive Tok where
  | lit (c : Char)
  | dot
  deriving Repr, DecidableEq

/-- Compile one pattern character: `.` is the wildcard, any other
metacharacter is outside the modelled fragment, the rest are literals. -/
def compileTok (c : Char) : Option Tok :=
  if c = '.' then some Tok.dot
  else if isRegexMeta c then none
  else some (Tok.lit c)

/-- Compile a raw interpolated parameter string into a token sequence;
`none` when the pattern uses PCRE features outside the modelled fragment. -/
def compilePat (s : String) : Option (List Tok) :=
  s.data.mapM compileTok

/-- Case-insensitive match of one token against one character (`"i"` option:
literals compare lower-cased; `.` matches anything but a newline). -/
def tokMatch : Tok → Char → Bool
  | Tok.lit c, d => c.toLower == d.toLower
  | Tok.dot, d => d != '\n'

/-- Whole-string match of a token sequence (the `^...$`-anchored case). -/
def seqMatch : List Tok → List Char → Bool
  | [], [] => true
  | t :: ts, c :: cs => tokMatch t c && seqMatch ts cs
  | _, _ => false

/-- Match of a token sequence against the front of the input, the rest
unconstrained. -/
def seqHeadMatch : List Tok → List Char → Bool
  | [], _ => true
  | _ :: _, [] => false
  | t :: ts, c :: cs => tokMatch t c && seqHeadMatch ts cs

/-- Match of a token sequence somewhere inside the input. -/
def seqSearch (toks : List Tok) : List Char → Bool
  | [] => seqHeadMatch toks []
  | c :: cs => seqHeadMatch toks (c :: cs) || seqSearch toks cs

/-- `db.collection.find_one({field: {"$regex": f"^{pat}$", "$options": "i"}})`
predicate: the fully anchored case-insensitive Mongo regex test. -/
def mongoAnchoredCI (pat s : String) : Bool :=
  match compilePat pat with
  | some toks => seqMatch toks s.data
  | none => false

/-- `{field: {"$regex": pat, "$options": "i"}}` predicate: the unanchored
(substring-searching) case-insensitive Mongo regex test. -/
def mongoSearchCI (pat s : String) : Bool :=
  match compilePat pat with
  | some toks => seqSearch toks s.data
  | none => false

/-! ### Document model (collections `books`, `ratings`, `tags`, `book_tags`,
`to_read`) -/

structure BookDoc where
  book_id : Int
  goodreads_book_id : Int
  title : String
  authors : String
  original_publication_year : Int
  average_rating : ℚ
  ratings_count : Int
  deriving Repr, DecidableEq

structure RatingDoc where
  user_id : Int
  book_id : Int
  rating : Int
  deriving Repr, DecidableEq

structure TagDoc where
  tag_id : Int
  tag_name : String
  deriving Repr, DecidableEq

structure BookTagDoc where
  goodreads_book_id : Int
  tag_id : Int
  count : Int
  deriving Repr, DecidableEq

structure ToReadDoc where
  user_id : Int
  book_id : Int
  deriving Repr, DecidableEq

/-- The document store: one list per named collection. -/
structure DB where
  books : List BookDoc
  ratings : List RatingDoc
  tags : List TagDoc
  book_tags : List BookTagDoc
  to_read : List ToReadDoc
  deriving Repr, DecidableEq

/-- `raise HTTPException(status_code=..., detail=...)`. -/
structure HTTPError where
  status : Int
  detail : String
  deriving Repr, DecidableEq

/-- The paginated response envelope `{items, page, page_size, total}`. -/
structure Paginated (α : Type) where
  items : List α
  page : Int
  page_size : Int
  total : Nat
  deriving Repr, DecidableEq

/-! ### Pagination Guard (`validate_pagination`, main.py lines 88-93) -/

def validate_pagination (page page_size : Int) :
    Except HTTPError (Int × Int) :=
  if page < 1 then
    Except.error ⟨400, "page must be >= 1"⟩
  else if page_size < 1 ∨ page_size > 100 then
    Except.error ⟨400, "page_size must be in [1, 100]"⟩
  else
    Except.ok (page, page_size)

/-! ### Sorting (`.sort([(sort_map[sort], direction)])`)

Mongo sorts the result set by one field, ascending for direction `1` and
descending for `-1`; tie order is store-dependent and the spec leaves it
undefined, so any order-correct sort models it. We use insertion sort. -/

def insertSorted (le : α → α → Bool) (x : α) : List α → List α
  | [] => [x]
  | y :: ys => if le x y then x :: y :: ys else y :: insertSorted le x ys

def sortBy (le : α → α → Bool) : List α → List α
  | [] => []
  | x :: xs => insertSorted le x (sortBy le xs)

/-- Field comparison for `sort_map`: `avg→average_rating`,
`ratings_count→ratings_count`, `year→original_publication_year`,
`title→title`. The route's `Query` pattern restricts `sort` to these four
values. -/
def sortFieldLe (sort : String) (a b : BookDoc) : Bool :=
  if sort = "avg" then a.average_rating ≤ b.average_rating
  else if sort = "ratings_count" then a.ratings_count ≤ b.ratings_count
  else if sort = "year" then
    a.original_publication_year ≤ b.original_publication_year
  else a.title ≤ b.title

/-- Sort direction: `-1` (descending) unless `order = "asc"`. -/
def bookLe (sort order : String) (a b : BookDoc) : Bool :=
  if order = "desc" then sortFieldLe sort b a else sortFieldLe sort a b

/-! ### `GET /books` (`list_books`, main.py lines 149-207) -/

/-- The filter document `filt` built by `list_books`, as a predicate on one
book document. `q` participates only when truthy (non-empty); its clause is
`$or` of two unanchored case-insensitive regex searches on `title` and
`authors`. `grIds = some ids` is the `goodreads_book_id ∈ ids` clause added
by the tag stage. -/
def bookMatches (q : Option String) (min_avg : Option ℚ)
    (year_from year_to : Option Int) (grIds : Option (List Int))
    (b : BookDoc) : Bool :=
  (match q with
   | some s =>
     if s = "" then true
     else mongoSearchCI s b.title || mongoSearchCI s b.authors
   | none => true)
  && (match min_avg with
      | some m => m ≤ b.average_rating
      | none => true)
  && (match year_from with
      | some y => y ≤ b.original_publication_year
      | none => true)
  && (match year_to with
      | some y => b.original_publication_year ≤ y
      | none => true)
  && (match grIds with
      | some ids => ids.contains b.goodreads_book_id
      | none => true)

/-- Outcome of the optional tag-filter stage (`if tag:` block). -/
inductive TagStage where
  | earlyEmpty
  | ids (grIds : Option (List Int))
  deriving Repr, DecidableEq

/-- The `if tag:` block: resolve the tag name by anchored case-insensitive
regex; no tag document or no associated `book_tags` rows short-circuits to
the empty envelope; otherwise the collected `goodreads_book_id`s join the
filter. A falsy (absent or empty) `tag` adds no clause. -/
def tagStage (db : DB) (tag : Option String) : TagStage :=
  match tag with
  | none => TagStage.ids none
  | some t =>
    if t = "" then TagStage.ids none
    else
      match db.tags.find? (fun td => mongoAnchoredCI t td.tag_name) with
      | none => TagStage.earlyEmpty
      | some td =>
        let goodreads_ids :=
          (db.book_tags.filter (fun bt => bt.tag_id == td.tag_id)).map
            (fun bt => bt.goodreads_book_id)
        if goodreads_ids.isEmpty then TagStage.earlyEmpty
        else TagStage.ids (some goodreads_ids)

def list_books (db : DB) (q tag : Option String) (min_avg : Option ℚ)
    (year_from year_to : Option Int) (sort order : String)
    (page page_size : Int) : Except HTTPError (Paginated BookDoc) :=
  match validate_pagination page page_size with
  | Except.error e => Except.error e
  | Except.ok (page, page_size) =>
    match tagStage db tag with
    | TagStage.earlyEmpty =>
      Except.ok ⟨[], page, page_size, 0⟩
    | TagStage.ids grIds =>
      let matching :=
        db.books.filter (bookMatches q min_avg year_from year_to grIds)
      let sorted := sortBy (bookLe sort order) matching
      let items :=
        (sorted.drop ((page - 1) * page_size).toNat).take page_size.toNat
      Except.ok ⟨items, page, page_size, matching.length⟩

/-! ### `GET /books/{book_id}` (`get_book`, main.py lines 210-219)

The ETag response header (an md5 of selected fields) is response-shaping
plumbing and is not modelled; the claims do not touch it. -/

def get_book (db : DB) (book_id : Int) : Except HTTPError BookDoc :=
  match db.books.find? (fun b => b.book_id == book_id) with
  | none => Except.error ⟨404, "book not found"⟩
  | some doc => Except.ok doc

/-! ### `GET /books/{book_id}/tags` (`book_tags`, main.py lines 222-233) -/

def book_tags_endpoint (db : DB) (book_id : Int) (page page_size : Int) :
    Except HTTPError (Paginated TagDoc) :=
  match validate_pagination page page_size with
  | Except.error e => Except.error e
  | Except.ok (page, page_size) =>
    match db.books.find? (fun b => b.book_id == book_id) with
    | none => Except.error ⟨404, "book not found"⟩
    | some book =>
      let gid := book.goodreads_book_id
      let tag_ids :=
        (db.book_tags.filter (fun bt => bt.goodreads_book_id == gid)).map
          (fun bt => bt.tag_id)
      let total := tag_ids.length
      let slice_ids :=
        (tag_ids.drop ((page - 1) * page_size).toNat).take page_size.toNat
      let items := db.tags.filter (fun t => slice_ids.contains t.tag_id)
      Except.ok ⟨items, page, page_size, total⟩

/-! ### `GET /authors/{author_name}/books` (`author_books`,
main.py lines 236-245); `exactMatch` models the `exact` query flag. -/

def author_books (db : DB) (author_name : String) (exactMatch : Bool)
    (page page_size : Int) : Except HTTPError (Paginated BookDoc) :=
  match validate_pagination page page_size with
  | Except.error e => Except.error e
  | Except.ok (page, page_size) =>
    let filt : BookDoc → Bool :=
      if exactMatch then fun b => mongoAnchoredCI author_name b.authors
      else fun b => mongoSearchCI author_name b.authors
    let matching := db.books.filter filt
    let items :=
      (matching.drop ((page - 1) * page_size).toNat).take page_size.toNat
    Except.ok ⟨items, page, page_size, matching.length⟩

/-! ### `GET /tags` (`list_tags`, main.py lines 248-264) -/

/-- A tag document together with its computed `book_count`. -/
structure TagOut where
  tag_id : Int
  tag_name : String
  book_count : Int
  deriving Repr, DecidableEq

def list_tags (db : DB) (page page_size : Int) :
    Except HTTPError (Paginated TagOut) :=
  match validate_pagination page page_size with
  | Except.error e => Except.error e
  | Except.ok (page, page_size) =>
    let total := db.tags.length
    let tags :=
      (db.tags.drop ((page - 1) * page_size).toNat).take page_size.toNat
    let items := tags.map (fun t =>
      let cnt :=
        (db.book_tags.filter (fun bt => bt.tag_id == t.tag_id)).length
      TagOut.mk t.tag_id t.tag_name cnt)
    Except.ok ⟨items, page, page_size, total⟩

/-! ### `GET /users/{user_id}/to-read` (`user_to_read`,
main.py lines 267-285)

The pipeline `$match` on `user_id`, `$lookup` of `books` by `book_id`,
`$unwind` of the joined array (which drops rows whose lookup found no
book and duplicates rows whose lookup found several), then `$skip`/`$limit`;
`total` is a separate raw `count_documents` on `to_read`. -/

def user_to_read (db : DB) (user_id : Int) (page page_size : Int) :
    Except HTTPError (Paginated BookDoc) :=
  match validate_pagination page page_size with
  | Except.error e => Except.error e
  | Except.ok (page, page_size) =>
    let rows := db.to_read.filter (fun tr => tr.user_id == user_id)
    let joined :=
      (rows.map (fun tr =>
        db.books.filter (fun b => b.book_id == tr.book_id))).flatten
    let items :=
      (joined.drop ((page - 1) * page_size).toNat).take page_size.toNat
    let total := rows.length
    Except.ok ⟨items, page, page_size, total⟩

/-! ### `GET /books/{book_id}/ratings/summary` (`ratings_summary`,
main.py lines 288-308) -/

/-- Python's `round(q, 3)` idealized over exact rationals: round to the
nearest multiple of `1/1000`, ties to the even multiple (Python rounds
half to even). -/
def pyRound3 (q : ℚ) : ℚ :=
  let x : ℚ := q * 1000
  let f : ℤ := ⌊x⌋
  let r : ℚ := x - f
  let n : ℤ :=
    if r < 1/2 then f
    else if (1:ℚ)/2 < r then f + 1
    else if f % 2 = 0 then f else f + 1
  (n : ℚ) / 1000

/-- The `$group: {_id: "$rating", count: {$sum: 1}}` stage: one output pair
per distinct rating value with its multiplicity, keys distinct by
construction (group order is store-dependent and irrelevant to the fold). -/
def groupCounts (l : List Int) : List (Int × Nat) :=
  l.dedup.map (fun v => (v, l.count v))

/-- The aggregation loop of `ratings_summary`: `buckets` starts as
`{1..5 ↦ 0}` (modelled as the zero function), and for each group `(r, c)`
with `1 ≤ r ≤ 5`, `buckets[r] = c`, `total += c`, `sumv += r*c`; groups with
keys outside `[1,5]` are skipped. -/
def summaryLoop : List (Int × Nat) → (Int → Nat) → Nat → Int →
    (Int → Nat) × Nat × Int
  | [], buckets, total, sumv => (buckets, total, sumv)
  | (r, c) :: gs, buckets, total, sumv =>
    if 1 ≤ r ∧ r ≤ 5 then
      summaryLoop gs (Function.update buckets r c) (total + c)
        (sumv + r * c)
    else
      summaryLoop gs buckets total sumv

/-- The `{avg, count, histogram}` response body. -/
structure SummaryOut where
  avg : ℚ
  count : Nat
  histogram : Int → Nat

def ratings_summary (db : DB) (book_id : Int) : SummaryOut :=
  let matched :=
    (db.ratings.filter (fun rd => rd.book_id == book_id)).map
      (fun rd => rd.rating)
  let res := summaryLoop (groupCounts matched) (fun _ => 0) 0 0
  let avg : ℚ := if res.2.1 = 0 then 0 else (res.2.2 : ℚ) / (res.2.1 : ℚ)
  ⟨pyRound3 avg, res.2.1, res.1⟩

/-! ### `POST /ratings` (`upsert_rating`, main.py lines 311-329) -/

/-- `db.ratings.update_one({user_id, book_id}, {"$set": <all fields>},
upsert=True)`: replace the first document matching the pair (a `$set` of
every field of the three-field document is a full replacement), or insert
the new document when none matches. The boolean is `res.upserted_id`:
`true` iff a new document was inserted. -/
def update_one_set : List RatingDoc → Int → Int → RatingDoc →
    List RatingDoc × Bool
  | [], _, _, nd => ([nd], true)
  | d :: ds, uid, bid, nd =>
    if d.user_id = uid ∧ d.book_id = bid then (nd :: ds, false)
    else
      let res := update_one_set ds uid bid nd
      (d :: res.1, res.2)

/-- `{"status": ...}` body plus the HTTP status code set on the response. -/
structure StatusResp where
  status : String
  code : Int
  deriving Repr, DecidableEq

/-- The handler body: upsert, then report `created`/201 when a document was
inserted and `updated`/200 when an existing one was overwritten. -/
def upsert_rating (db : DB) (user_id book_id rating : Int) :
    StatusResp × DB :=
  let res := update_one_set db.ratings user_id book_id
    ⟨user_id, book_id, rating⟩
  (if res.2 then ⟨"created", 201⟩ else ⟨"updated", 200⟩,
   { db with ratings := res.1 })

/-- The validated request body of `POST /ratings`. -/
structure RatingIn where
  user_id : Int
  book_id : Int
  rating : Int
  deriving Repr, DecidableEq

/-- Modelled from the spec: the request-body validation boundary of
`POST /ratings` is enforced by the web framework from the declared
constraint `rating: int = Field(ge=1, le=5)` in `RatingIn`
(main.py lines 32-35); the framework code itself is not part of this
repository. Per the spec's error taxonomy, an out-of-range rating fails
with `InvalidRequest` → HTTP 400 before the handler (and hence any store
access) is reached. -/
def parse_rating_in (user_id book_id rating : Int) :
    Except HTTPError RatingIn :=
  if 1 ≤ rating ∧ rating ≤ 5 then Except.ok ⟨user_id, book_id, rating⟩
  else Except.error ⟨400, "rating must be in [1, 5]"⟩

/-- The full `POST /ratings` route: body validation, then the handler. A
validation failure returns the error with the store untouched. -/
def post_ratings (db : DB) (user_id book_id rating : Int) :
    Except HTTPError StatusResp × DB :=
  match parse_rating_in user_id book_id rating with
  | Except.error e => (Except.error e, db)
  | Except.ok r =>
    let res := upsert_rating db r.user_id r.book_id r.rating
    (Except.ok res.1, res.2)

/-! ### The API surface as one dispatcher

Each route handler above is a pure function of the store; the only handler
that produces a new store is `POST /ratings` (its body is the one store
write in main.py, `db.ratings.update_one`). The dispatcher threads the
store through a request, returning the response and the store afterwards. -/

inductive ApiOp where
  | listBooks (q tag : Option String) (min_avg : Option ℚ)
      (year_from year_to : Option Int) (sort order : String)
      (page page_size : Int)
  | getBook (book_id : Int)
  | bookTags (book_id : Int) (page page_size : Int)
  | authorBooks (author_name : String) (exactMatch : Bool)
      (page page_size : Int)
  | listTags (page page_size : Int)
  | userToRead (user_id : Int) (page page_size : Int)
  | ratingsSummary (book_id : Int)
  | postRatings (user_id book_id rating : Int)

inductive ApiResponse where
  | pagedBooks (r : Except HTTPError (Paginated BookDoc))
  | pagedTags (r : Except HTTPError (Paginated TagDoc))
  | pagedTagOuts (r : Except HTTPError (Paginated TagOut))
  | book (r : Except HTTPError BookDoc)
  | summary (s : SummaryOut)
  | statusOut (r : Except HTTPError StatusResp)

def apply_op (db : DB) : ApiOp → ApiResponse × DB
  | ApiOp.listBooks q tag min_avg year_from year_to sort order page psize =>
    (ApiResponse.pagedBooks
      (list_books db q tag min_avg year_from year_to sort order page psize),
     db)
  | ApiOp.getBook bid => (ApiResponse.book (get_book db bid), db)
  | ApiOp.bookTags bid page psize =>
    (ApiResponse.pagedTags (book_tags_endpoint db bid page psize), db)
  | ApiOp.authorBooks name ex page psize =>
    (ApiResponse.pagedBooks (author_books db name ex page psize), db)
  | ApiOp.listTags page psize =>
    (ApiResponse.pagedTagOuts (list_tags db page psize), db)
  | ApiOp.userToRead uid page psize =>
    (ApiResponse.pagedBooks (user_to_read db uid page psize), db)
  | ApiOp.ratingsSummary bid =>
    (ApiResponse.summary (ratings_summary db bid), db)
  | ApiOp.postRatings uid bid rating =>
    let res := post_ratings db uid bid rating
    (ApiResponse.statusOut res.1, res.2)

/-! ### Data Loader type coercion (`_coerce_dtypes`,
src/ingest/loaddata.py lines 13-28)

A pandas DataFrame cell is modelled as a `Cell`: raw CSV cells are strings;
`pd.to_numeric(col, errors="coerce")` turns each cell into a rational or
`NaN`; `astype("int64")` truncates toward zero; `astype(str)` stringifies.
A DataFrame is a column list plus rows of `(column, cell)` pairs. Numeric
parsing is modelled for decimal literals (optional sign, digits, optional
fractional part), the format of the numeric CSV columns this loader reads. -/

inductive Cell where
  | str (s : String)
  | num (q : ℚ)
  | nan
  | intv (n : Int)
  deriving Repr, DecidableEq

inductive DType where
  | long
  | double
  | string
  deriving Repr, DecidableEq

def digitsToNat (cs : List Char) : Option Nat :=
  if cs ≠ [] ∧ cs.all Char.isDigit then
    some (cs.foldl (fun a c => a * 10 + (c.toNat - 48)) 0)
  else none

/-- `pd.to_numeric` on a decimal literal string: `[+|-] digits [. digits]`;
anything else fails to parse. -/
def parseNumeric (s : String) : Option ℚ :=
  let cs := s.data
  let core : List Char → Option ℚ := fun body =>
    match body.splitOn '.' with
    | [intPart] => (digitsToNat intPart).map (fun n => (n : ℚ))
    | [intPart, fracPart] =>
      match digitsToNat intPart, digitsToNat fracPart with
      | some n, some f =>
        some ((n : ℚ) + (f : ℚ) / ((10 : ℚ) ^ fracPart.length))
      | _, _ => none
    | _ => none
  match cs with
  | '-' :: rest => (core rest).map (fun q => -q)
  | '+' :: rest => core rest
  | _ => core cs

/-- `pd.to_numeric(errors="coerce")` on one cell: parse failure yields NaN
(modelled by `none` here, materialized as `Cell.nan`). -/
def cellToNumeric : Cell → Option ℚ
  | Cell.str s => parseNumeric s
  | Cell.num q => some q
  | Cell.intv n => some (n : ℚ)
  | Cell.nan => none

/-- `astype(str)` on one cell. Raw CSV cells are strings, so in practice
this is the identity; other cases stringify via `Repr`-like rendering. -/
def cellToStr : Cell → String
  | Cell.str s => s
  | Cell.num q => toString q
  | Cell.intv n => toString n
  | Cell.nan => "nan"

/-- Truncation toward zero, the `astype("int64")` conversion of a float
(`Int.tdiv` is T-division; the denominator of a `ℚ` is positive). -/
def truncRat (q : ℚ) : Int := q.num.tdiv (q.den : Int)

abbrev Row := List (String × Cell)

def rowGet (r : Row) (col : String) : Option Cell :=
  (r.find? (fun p => p.1 == col)).map (fun p => p.2)

def rowSet (r : Row) (col : String) (v : Cell) : Row :=
  r.map (fun p => if p.1 == col then (p.1, v) else p)

/-- The per-column `pd.to_numeric(df[col], errors="coerce")` result for one
row. -/
def numCell (r : Row) (col : String) : Cell :=
  match (rowGet r col).bind cellToNumeric with
  | some q => Cell.num q
  | none => Cell.nan

/-- One iteration of the coercion loop, for column `col` of type `typ`:
- `long`: `to_numeric(errors="coerce")`, then `dropna(subset=[col])`
  (rows whose value failed to parse are removed), then `astype("int64")`
  (the non-`num` fallback is unreachable after the dropna);
- `double`: `to_numeric(errors="coerce")` then `astype("float64")` —
  parse failures become NaN and the row is kept;
- `string`: `astype(str)`. -/
def coerceCol (rows : List Row) (col : String) : DType → List Row
  | DType.long =>
    let rows1 := rows.map (fun r => rowSet r col (numCell r col))
    let rows2 := rows1.filter (fun r => rowGet r col != some Cell.nan)
    rows2.map (fun r =>
      match rowGet r col with
      | some (Cell.num q) => rowSet r col (Cell.intv (truncRat q))
      | _ => r)
  | DType.double =>
    rows.map (fun r => rowSet r col (numCell r col))
  | DType.string =>
    rows.map (fun r =>
      match rowGet r col with
      | some c => rowSet r col (Cell.str (cellToStr c))
      | none => r)

structure DataFrame where
  columns : List String
  rows : List Row
  deriving Repr, DecidableEq

/-- `_coerce_dtypes(df, dtypes)`: keep only the expected columns that are
present (`df[cols]`), then run the coercion loop over `dtypes`, skipping
columns absent from the DataFrame. -/
def coerce_dtypes (df : DataFrame) (dtypes : List (String × DType)) :
    DataFrame :=
  let cols :=
    (dtypes.map (fun p => p.1)).filter (fun c => df.columns.contains c)
  let rows0 := df.rows.map (fun r =>
    cols.filterMap (fun c => (rowGet r c).map (fun v => (c, v))))
  let rows1 := dtypes.foldl
    (fun rs ct => if cols.contains ct.1 then coerceCol rs ct.1 ct.2 else rs)
    rows0
  ⟨cols, rows1⟩

/-! ### A sample store, used to instantiate theorems on concrete data.
It contains one out-of-range rating document (user 10, book 1, rating 9)
and one dangling to-read row (user 7, book 99). -/

def sampleDB : DB where
  books := [⟨1, 100, "Dune", "Frank Herbert", 1965, (21 : ℚ)/5, 500⟩,
            ⟨2, 200, "Emma", "Jane Austen", 1815, (4 : ℚ), 300⟩]
  ratings := [⟨7, 1, 3⟩, ⟨8, 1, 5⟩, ⟨9, 2, 4⟩, ⟨10, 1, 9⟩]
  tags := [⟨1, "sci-fi"⟩, ⟨2, "classic"⟩]
  book_tags := [⟨100, 1, 3⟩]
  to_read := [⟨7, 1⟩, ⟨7, 99⟩]

/-! ### Helper lemmas -/

theorem length_insertSorted (le : α → α → Bool) (x : α) (l : List α) :
    (insertSorted le x l).length = l.length + 1 := by
  induction l with
  | nil => rfl
  | cons y ys ih =>
    simp only [insertSorted]
    split
    · simp
    · simp [ih]

theorem length_sortBy (le : α → α → Bool) (l : List α) :
    (sortBy le l).length = l.length := by
  induction l with
  | nil => rfl
  | cons x xs ih => simp [sortBy, length_insertSorted, ih]

theorem validate_pagination_ok {page page_size : Int}
    (h1 : 1 ≤ page) (h2 : 1 ≤ page_size) (h3 : page_size ≤ 100) :
    validate_pagination page page_size = Except.ok (page, page_size) := by
  unfold validate_pagination
  split_ifs with ha hb
  · omega
  · omega
  · rfl

theorem validate_pagination_invalid {page page_size : Int}
    (h : page < 1 ∨ page_size < 1 ∨ page_size > 100) :
    ∃ e, validate_pagination page page_size = Except.error e ∧
      e.status = 400 := by
  unfold validate_pagination
  split_ifs with ha hb
  · exact ⟨_, rfl, rfl⟩
  · exact ⟨_, rfl, rfl⟩
  · omega

theorem validate_pagination_ok_inv {page page_size : Int} {v : Int × Int}
    (h : validate_pagination page page_size = Except.ok v) :
    v = (page, page_size) ∧ 1 ≤ page ∧ 1 ≤ page_size ∧ page_size ≤ 100 := by
  unfold validate_pagination at h
  split_ifs at h with ha hb
  cases h
  exact ⟨rfl, by omega, by omega, by omega⟩

/-- **C2.** The Pagination Guard rejects with a 400 `InvalidRequest` exactly
when `page < 1` or `page_size ∉ [1,100]`, returns every valid pair
unchanged, and the `GET /books` listing built on it returns a page window
that skips `(page-1)*page_size` of the matching documents and holds at most
`page_size` items. -/
theorem claim_C2 (page page_size : Int) :
    ((page < 1 ∨ page_size < 1 ∨ page_size > 100) ↔
      ∃ e, validate_pagination page page_size = Except.error e ∧
        e.status = 400) ∧
    (¬(page < 1 ∨ page_size < 1 ∨ page_size > 100) →
      validate_pagination page page_size = Except.ok (page, page_size)) ∧
    (∀ (db : DB) (q tag : Option String) (min_avg : Option ℚ)
        (year_from year_to : Option Int) (sort order : String)
        (res : Paginated BookDoc),
      list_books db q tag min_avg year_from year_to sort order
          page page_size = Except.ok res →
      res.items.length ≤ page_size.toNat ∧
      ∃ l : List BookDoc,
        res.items =
          (l.drop ((page - 1) * page_size).toNat).take page_size.toNat ∧
        l.length = res.total) := by
  refine ⟨?_, ?_, ?_⟩
  · constructor
    · exact validate_pagination_invalid
    · rintro ⟨e, he, -⟩
      by_contra hvalid
      rw [validate_pagination_ok (by omega) (by omega) (by omega)] at he
      cases he
  · intro h
    exact validate_pagination_ok (by omega) (by omega) (by omega)
  · intro db q tag min_avg year_from year_to sort order res hres
    unfold list_books at hres
    cases hvp : validate_pagination page page_size with
    | error e => rw [hvp] at hres; cases hres
    | ok v =>
      obtain ⟨rfl, -, -, -⟩ := validate_pagination_ok_inv hvp
      rw [hvp] at hres
      cases hts : tagStage db tag with
      | earlyEmpty =>
        rw [hts] at hres
        cases hres
        exact ⟨by simp, [], by simp, rfl⟩
      | ids grIds =>
        rw [hts] at hres
        cases hres
        refine ⟨?_, sortBy (bookLe sort order)
          (db.books.filter
            (bookMatches q min_avg year_from year_to grIds)), rfl, ?_⟩
        · simp
        · simp [length_sortBy]

/-- **C2 witness.** The guard and the listing evaluated at a concrete
valid and a concrete invalid pair. -/
theorem claim_C2_witness :
    (¬((1 : ℤ) < 1 ∨ (20 : ℤ) < 1 ∨ (20 : ℤ) > 100) →
      validate_pagination 1 20 = Except.ok (1, 20)) ∧
    ((0 : ℤ) < 1 ∨ (20 : ℤ) < 1 ∨ (20 : ℤ) > 100) ∧
    (∃ e, validate_pagination 0 20 = Except.error e ∧ e.status = 400) :=
  ⟨(claim_C2 1 20).2.1,
   Or.inl (by norm_num),
   (claim_C2 0 20).1.mp (Or.inl (by norm_num))⟩

/-- **C4.** A `GET /books` query with a non-empty tag parameter that
resolves to no stored tag — or to a tag with no associated `book_tags`
rows — succeeds with `{items: [], total: 0}`, whatever the other filter
parameters `q`, `min_avg`, `year_from`, `year_to` are. -/
theorem claim_C4 (db : DB) (t : String) (q : Option String)
    (min_avg : Option ℚ) (year_from year_to : Option Int)
    (sort order : String) (page page_size : Int)
    (hne : t ≠ "")
    (hvp : validate_pagination page page_size = Except.ok (page, page_size)) :
    (db.tags.find? (fun td => mongoAnchoredCI t td.tag_name) = none →
      list_books db q (some t) min_avg year_from year_to sort order
          page page_size =
        Except.ok ⟨[], page, page_size, 0⟩) ∧
    (∀ td, db.tags.find? (fun td => mongoAnchoredCI t td.tag_name) = some td →
      db.book_tags.filter (fun bt => bt.tag_id == td.tag_id) = [] →
      list_books db q (some t) min_avg year_from year_to sort order
          page page_size =
        Except.ok ⟨[], page, page_size, 0⟩) := by
  constructor
  · intro hfind
    unfold list_books
    rw [hvp]
    have hts : tagStage db (some t) = TagStage.earlyEmpty := by
      simp only [tagStage]
      rw [if_neg hne, hfind]
    rw [hts]
  · intro td hfind hbt
    unfold list_books
    rw [hvp]
    have hts : tagStage db (some t) = TagStage.earlyEmpty := by
      simp only [tagStage]
      rw [if_neg hne, hfind]
      simp [hbt]
    rw [hts]

/-- **C4 witness.** An unknown tag name on the sample store, with an
unrelated `min_avg` filter present. -/
theorem claim_C4_witness :
    ("nope" ≠ "") ∧
    (sampleDB.tags.find?
        (fun td => mongoAnchoredCI "nope" td.tag_name) = none) ∧
    list_books sampleDB none (some "nope") (some 1) none none "avg" "desc"
        1 20 =
      Except.ok ⟨[], 1, 20, 0⟩ :=
  ⟨by decide, by decide,
   (claim_C4 sampleDB "nope" none (some 1) none none "avg" "desc" 1 20
      (by decide) rfl).1 (by decide)⟩

/-- **C5 counterexample.** Tag resolution is a raw-interpolated regex, not
an exact comparison: the query tag `"sci.fi"` matches the stored tag name
`"sci-fi"` (PCRE `.` matches any character), although the two names are not
equal up to letter case — so "matches iff equal up to case" fails. -/
theorem claim_C5_counterexample :
    mongoAnchoredCI "sci.fi" "sci-fi" = true ∧
    "sci.fi".data.map Char.toLower ≠ "sci-fi".data.map Char.toLower ∧
    [TagDoc.mk 1 "sci-fi"].find?
        (fun td => mongoAnchoredCI "sci.fi" td.tag_name) =
      some (TagDoc.mk 1 "sci-fi") := by
  refine ⟨by decide, by decide, by decide⟩

theorem compileTok_lit {c : Char} (h : isRegexMeta c = false) :
    compileTok c = some (Tok.lit c) := by
  have hdot : ¬(c = '.') := by
    rintro rfl
    simp [isRegexMeta, regexMetaChars] at h
  simp [compileTok, hdot, h]

theorem compilePat_lits (cs : List Char)
    (h : ∀ c ∈ cs, isRegexMeta c = false) :
    cs.mapM compileTok = some (cs.map Tok.lit) := by
  induction cs with
  | nil => rfl
  | cons c cs ih =>
    rw [List.mapM_cons, compileTok_lit (h c (by simp)),
      ih (fun x hx => h x (by simp [hx]))]
    rfl

theorem seqMatch_lits (cs ds : List Char) :
    seqMatch (cs.map Tok.lit) ds = true ↔
      cs.map Char.toLower = ds.map Char.toLower := by
  induction cs generalizing ds with
  | nil => cases ds <;> simp [seqMatch]
  | cons c cs ih =>
    cases ds with
    | nil => simp [seqMatch]
    | cons d ds => simp [seqMatch, tokMatch, ih]

/-- **C5 (amended).** For tag parameters made only of literal characters
(no PCRE metacharacter), the first-stage tag matcher accepts a stored tag
name iff the two are equal up to letter case — anchored, whole-name,
case-insensitive. (As stated the claim is false: the tag is interpolated
into the pattern unescaped, so metacharacters act as pattern syntax — see
the counterexample.) -/
theorem claim_C5 (t name : String)
    (h : ∀ c ∈ t.data, isRegexMeta c = false) :
    mongoAnchoredCI t name = true ↔
      t.data.map Char.toLower = name.data.map Char.toLower := by
  unfold mongoAnchoredCI compilePat
  rw [compilePat_lits t.data h]
  exact seqMatch_lits t.data name.data

/-- **C5 witness.** The amended statement evaluated at a metacharacter-free
tag. -/
theorem claim_C5_witness :
    (∀ c ∈ "fantasy".data, isRegexMeta c = false) ∧
    (mongoAnchoredCI "fantasy" "Fantasy" = true ↔
      "fantasy".data.map Char.toLower = "Fantasy".data.map Char.toLower) :=
  ⟨by decide, claim_C5 "fantasy" "Fantasy" (by decide)⟩

theorem update_one_set_no_match {l : List RatingDoc} {uid bid : Int}
    {nd : RatingDoc}
    (h : ∀ d ∈ l, ¬(d.user_id = uid ∧ d.book_id = bid)) :
    update_one_set l uid bid nd = (l ++ [nd], true) := by
  induction l with
  | nil => rfl
  | cons d ds ih =>
    simp only [update_one_set]
    rw [if_neg (h d (by simp))]
    simp [ih (fun x hx => h x (by simp [hx]))]

theorem update_one_set_append_match {l : List RatingDoc} {uid bid : Int}
    {d nd : RatingDoc}
    (h : ∀ x ∈ l, ¬(x.user_id = uid ∧ x.book_id = bid))
    (hd : d.user_id = uid ∧ d.book_id = bid) :
    update_one_set (l ++ [d]) uid bid nd = (l ++ [nd], false) := by
  induction l with
  | nil =>
    simp only [List.nil_append, update_one_set]
    rw [if_pos hd]
  | cons x xs ih =>
    simp only [List.cons_append, update_one_set]
    rw [if_neg (h x (by simp))]
    simp [ih (fun y hy => h y (by simp [hy]))]

/-- **C1.** Starting from a store holding no Rating document for the pair
`(user_id, book_id)`, two sequential `POST /ratings` upserts for that pair
with different rating values leave exactly one Rating document for the
pair, holding the second value; the first call reports `created` with
status 201 and the second `updated` with status 200. -/
theorem claim_C1 (db : DB) (uid bid r1 r2 : Int)
    (h : ∀ d ∈ db.ratings, ¬(d.user_id = uid ∧ d.book_id = bid))
    (_hne : r1 ≠ r2) :
    (upsert_rating db uid bid r1).1 = ⟨"created", 201⟩ ∧
    (upsert_rating (upsert_rating db uid bid r1).2 uid bid r2).1 =
      ⟨"updated", 200⟩ ∧
    (upsert_rating (upsert_rating db uid bid r1).2 uid bid r2).2.ratings.filter
        (fun d => d.user_id == uid && d.book_id == bid) =
      [⟨uid, bid, r2⟩] := by
  have h1 : update_one_set db.ratings uid bid ⟨uid, bid, r1⟩ =
      (db.ratings ++ [⟨uid, bid, r1⟩], true) :=
    update_one_set_no_match h
  have hmid : (upsert_rating db uid bid r1).2.ratings =
      db.ratings ++ [⟨uid, bid, r1⟩] := by
    simp [upsert_rating, h1]
  have h2 : update_one_set (db.ratings ++ [⟨uid, bid, r1⟩]) uid bid
      ⟨uid, bid, r2⟩ = (db.ratings ++ [⟨uid, bid, r2⟩], false) :=
    update_one_set_append_match h ⟨rfl, rfl⟩
  refine ⟨by simp [upsert_rating, h1], ?_, ?_⟩
  · simp [upsert_rating, h1, h2]
  · have hfront : db.ratings.filter
        (fun d => d.user_id == uid && d.book_id == bid) = [] := by
      rw [List.filter_eq_nil_iff]
      intro d hd
      have := h d hd
      simp only [Bool.and_eq_true, beq_iff_eq]
      tauto
    simp [upsert_rating, h1, h2, List.filter_append, hfront]

/-- **C1 witness.** A fresh `(user, book)` pair on the sample store, first
rated 5 and then 3. -/
theorem claim_C1_witness :
    (∀ d ∈ sampleDB.ratings, ¬(d.user_id = 42 ∧ d.book_id = 2)) ∧
    ((5 : ℤ) ≠ 3) ∧
    (upsert_rating sampleDB 42 2 5).1 = ⟨"created", 201⟩ ∧
    (upsert_rating (upsert_rating sampleDB 42 2 5).2 42 2 3).1 =
      ⟨"updated", 200⟩ ∧
    (upsert_rating (upsert_rating sampleDB 42 2 5).2 42 2 3).2.ratings.filter
        (fun d => d.user_id == 42 && d.book_id == 2) =
      [⟨42, 2, 3⟩] := by
  have hmain := claim_C1 sampleDB 42 2 5 3 (by decide) (by decide)
  exact ⟨by decide, by decide, hmain.1, hmain.2.1, hmain.2.2⟩

/-- **C6.** `GET /users/{user_id}/to-read` reports `total` as the raw count
of ToRead rows for the user: it is computed without the join (unchanged
under any replacement of the Book collection), while `items` contains only
successfully joined books, so a ToRead row whose `book_id` matches no Book
document is dropped from `items` yet still counted in `total`. -/
theorem claim_C6 (db : DB) (uid page page_size : Int)
    (res : Paginated BookDoc)
    (hres : user_to_read db uid page page_size = Except.ok res) :
    res.total = (db.to_read.filter (fun tr => tr.user_id == uid)).length ∧
    (∀ (books2 : List BookDoc) (res2 : Paginated BookDoc),
      user_to_read { db with books := books2 } uid page page_size =
        Except.ok res2 →
      res2.total = res.total) ∧
    (∀ b ∈ res.items, b ∈ db.books ∧
      ∃ tr ∈ db.to_read, tr.user_id = uid ∧ tr.book_id = b.book_id) := by
  unfold user_to_read at hres
  cases hvp : validate_pagination page page_size with
  | error e => rw [hvp] at hres; cases hres
  | ok v =>
    obtain ⟨rfl, -, -, -⟩ := validate_pagination_ok_inv hvp
    rw [hvp] at hres
    cases hres
    refine ⟨rfl, ?_, ?_⟩
    · intro books2 res2 hres2
      unfold user_to_read at hres2
      rw [hvp] at hres2
      cases hres2
      rfl
    · intro b hb
      have hbj : b ∈ (List.map (fun tr =>
          db.books.filter (fun bk => bk.book_id == tr.book_id))
          (db.to_read.filter (fun tr => tr.user_id == uid))).flatten := by
        exact List.mem_of_mem_drop (List.mem_of_mem_take hb)
      rw [List.mem_flatten] at hbj
      obtain ⟨l, hl, hbl⟩ := hbj
      rw [List.mem_map] at hl
      obtain ⟨tr, htr, rfl⟩ := hl
      rw [List.mem_filter] at hbl htr
      refine ⟨hbl.1, tr, htr.1, ?_, ?_⟩
      · exact beq_iff_eq.mp htr.2
      · exact (beq_iff_eq.mp hbl.2).symm

/-- **C6 witness.** User 7 of the sample store has two to-read rows, one of
them dangling (book 99 does not exist): `total` is 2. -/
theorem claim_C6_witness :
    user_to_read sampleDB 7 1 20 =
      Except.ok ⟨[⟨1, 100, "Dune", "Frank Herbert", 1965, (21 : ℚ)/5, 500⟩],
        1, 20, 2⟩ ∧
    (Paginated.total
      (⟨[⟨1, 100, "Dune", "Frank Herbert", 1965, (21 : ℚ)/5, 500⟩],
        1, 20, 2⟩ : Paginated BookDoc)) =
      (sampleDB.to_read.filter (fun tr => tr.user_id == 7)).length := by
  have hres : user_to_read sampleDB 7 1 20 =
      Except.ok ⟨[⟨1, 100, "Dune", "Frank Herbert", 1965, (21 : ℚ)/5, 500⟩],
        1, 20, 2⟩ := by
    unfold user_to_read validate_pagination sampleDB
    norm_num
  exact ⟨hres, (claim_C6 sampleDB 7 1 20 _ hres).1⟩

/-- **C8.** A `POST /ratings` request whose rating lies outside `[1,5]`
fails with a 400 `InvalidRequest` at the validation boundary, leaving the
store untouched (validation happens before any store access); the upsert
handler is only ever invoked with a rating in `[1,5]`. -/
theorem claim_C8 (db : DB) (uid bid rating : Int) :
    (¬(1 ≤ rating ∧ rating ≤ 5) →
      post_ratings db uid bid rating =
        (Except.error ⟨400, "rating must be in [1, 5]"⟩, db)) ∧
    (∀ r, parse_rating_in uid bid rating = Except.ok r →
      1 ≤ r.rating ∧ r.rating ≤ 5) ∧
    ((1 ≤ rating ∧ rating ≤ 5) →
      (post_ratings db uid bid rating).1 =
        Except.ok (upsert_rating db uid bid rating).1) := by
  refine ⟨?_, ?_, ?_⟩
  · intro h
    unfold post_ratings parse_rating_in
    rw [if_neg h]
  · intro r hr
    unfold parse_rating_in at hr
    split_ifs at hr with h
    cases hr
    exact h
  · intro h
    unfold post_ratings parse_rating_in
    rw [if_pos h]

/-- **C8 witness.** Rating 9 for user 7 and book 1 is rejected with 400 and
the sample store is returned unchanged. -/
theorem claim_C8_witness :
    (¬((1 : ℤ) ≤ 9 ∧ (9 : ℤ) ≤ 5)) ∧
    post_ratings sampleDB 7 1 9 =
      (Except.error ⟨400, "rating must be in [1, 5]"⟩, sampleDB) :=
  ⟨by decide, (claim_C8 sampleDB 7 1 9).1 (by decide)⟩

/-- **C9.** No API operation changes the Book, Tag, BookTag or ToRead
collections: the read endpoints perform no store write at all, and
`POST /ratings` — the one mutating operation — touches only the Rating
collection. -/
theorem claim_C9 (db : DB) (op : ApiOp) :
    (apply_op db op).2.books = db.books ∧
    (apply_op db op).2.tags = db.tags ∧
    (apply_op db op).2.book_tags = db.book_tags ∧
    (apply_op db op).2.to_read = db.to_read := by
  cases op with
  | listBooks q tag m yf yt s o p ps => exact ⟨rfl, rfl, rfl, rfl⟩
  | getBook bid => exact ⟨rfl, rfl, rfl, rfl⟩
  | bookTags bid p ps => exact ⟨rfl, rfl, rfl, rfl⟩
  | authorBooks n e p ps => exact ⟨rfl, rfl, rfl, rfl⟩
  | listTags p ps => exact ⟨rfl, rfl, rfl, rfl⟩
  | userToRead u p ps => exact ⟨rfl, rfl, rfl, rfl⟩
  | ratingsSummary bid => exact ⟨rfl, rfl, rfl, rfl⟩
  | postRatings uid bid r =>
    simp only [apply_op, post_ratings, parse_rating_in]
    split_ifs with h
    · exact ⟨rfl, rfl, rfl, rfl⟩
    · exact ⟨rfl, rfl, rfl, rfl⟩

/-! ### Aggregation-loop characterization (for the ratings summary) -/

theorem summaryLoop_buckets_stable (gs : List (Int × Nat)) (b : Int → Nat)
    (t : Nat) (s : Int) (r : Int) (h : r ∉ gs.map Prod.fst) :
    (summaryLoop gs b t s).1 r = b r := by
  induction gs generalizing b t s with
  | nil => rfl
  | cons g gs ih =>
    obtain ⟨r0, c0⟩ := g
    simp only [List.map_cons, List.mem_cons] at h
    push_neg at h
    simp only [summaryLoop]
    split_ifs with hr
    · rw [ih _ _ _ h.2]
      exact Function.update_noteq h.1 _ _
    · exact ih _ _ _ h.2

theorem summaryLoop_buckets_out (gs : List (Int × Nat)) (b : Int → Nat)
    (t : Nat) (s : Int) (r : Int) (hr : ¬(1 ≤ r ∧ r ≤ 5)) :
    (summaryLoop gs b t s).1 r = b r := by
  induction gs generalizing b t s with
  | nil => rfl
  | cons g gs ih =>
    obtain ⟨r0, c0⟩ := g
    simp only [summaryLoop]
    split_ifs with h0
    · rw [ih]
      refine Function.update_noteq ?_ _ _
      rintro rfl
      exact hr h0
    · exact ih _ _ _

theorem summaryLoop_buckets_key (gs : List (Int × Nat)) (b : Int → Nat)
    (t : Nat) (s : Int) (r : Int) (c : Nat)
    (hnd : (gs.map Prod.fst).Nodup) (hmem : (r, c) ∈ gs)
    (hr : 1 ≤ r ∧ r ≤ 5) :
    (summaryLoop gs b t s).1 r = c := by
  induction gs generalizing b t s with
  | nil => cases hmem
  | cons g gs ih =>
    obtain ⟨r0, c0⟩ := g
    simp only [List.map_cons, List.nodup_cons] at hnd
    rcases List.mem_cons.mp hmem with heq | hmem2
    · injection heq with h1 h2
      subst h1
      subst h2
      simp only [summaryLoop]
      rw [if_pos hr]
      rw [summaryLoop_buckets_stable _ _ _ _ _ hnd.1]
      simp
    · simp only [summaryLoop]
      split_ifs with h0
      · exact ih _ _ _ hnd.2 hmem2
      · exact ih _ _ _ hnd.2 hmem2

theorem summaryLoop_sum (gs : List (Int × Nat)) (b : Int → Nat)
    (t : Nat) (s : Int)
    (hnd : (gs.map Prod.fst).Nodup)
    (hb : ∀ p ∈ gs, 1 ≤ p.1 → p.1 ≤ 5 → b p.1 = 0) :
    (∑ r in Finset.Icc (1 : ℤ) 5, (summaryLoop gs b t s).1 r) + t =
      (∑ r in Finset.Icc (1 : ℤ) 5, b r) + (summaryLoop gs b t s).2.1 := by
  induction gs generalizing b t s with
  | nil => simp [summaryLoop]
  | cons g gs ih =>
    obtain ⟨r0, c0⟩ := g
    simp only [List.map_cons, List.nodup_cons] at hnd
    simp only [summaryLoop]
    split_ifs with h0
    · have hr0ne : ∀ p ∈ gs, p.1 ≠ r0 := by
        intro p hp hpe
        exact hnd.1 (hpe ▸ List.mem_map_of_mem Prod.fst hp)
      have hupd : ∀ p ∈ gs, 1 ≤ p.1 → p.1 ≤ 5 →
          Function.update b r0 c0 p.1 = 0 := by
        intro p hp h1 h2
        rw [Function.update_noteq (hr0ne p hp)]
        exact hb p (by simp [hp]) h1 h2
      have hrec := ih (Function.update b r0 c0) (t + c0) (s + r0 * c0)
        hnd.2 hupd
      have hr0icc : r0 ∈ Finset.Icc (1 : ℤ) 5 :=
        Finset.mem_Icc.mpr ⟨h0.1, h0.2⟩
      have hb0 : b r0 = 0 := hb (r0, c0) (by simp) h0.1 h0.2
      have hsum : (∑ r in Finset.Icc (1 : ℤ) 5, Function.update b r0 c0 r) =
          (∑ r in Finset.Icc (1 : ℤ) 5, b r) + c0 := by
        rw [Finset.sum_update_of_mem hr0icc]
        rw [Finset.sdiff_singleton_eq_erase, Finset.sum_erase _ hb0]
        omega
      omega
    · exact ih b t s hnd.2 (fun p hp => hb p (by simp [hp]))

theorem summaryLoop_wsum (gs : List (Int × Nat)) (b : Int → Nat)
    (t : Nat) (s : Int)
    (hnd : (gs.map Prod.fst).Nodup)
    (hb : ∀ p ∈ gs, 1 ≤ p.1 → p.1 ≤ 5 → b p.1 = 0) :
    (∑ r in Finset.Icc (1 : ℤ) 5, r * ((summaryLoop gs b t s).1 r : ℤ)) + s =
      (∑ r in Finset.Icc (1 : ℤ) 5, r * (b r : ℤ)) +
        (summaryLoop gs b t s).2.2 := by
  induction gs generalizing b t s with
  | nil => simp [summaryLoop]
  | cons g gs ih =>
    obtain ⟨r0, c0⟩ := g
    simp only [List.map_cons, List.nodup_cons] at hnd
    simp only [summaryLoop]
    split_ifs with h0
    · have hr0ne : ∀ p ∈ gs, p.1 ≠ r0 := by
        intro p hp hpe
        exact hnd.1 (hpe ▸ List.mem_map_of_mem Prod.fst hp)
      have hupd : ∀ p ∈ gs, 1 ≤ p.1 → p.1 ≤ 5 →
          Function.update b r0 c0 p.1 = 0 := by
        intro p hp h1 h2
        rw [Function.update_noteq (hr0ne p hp)]
        exact hb p (by simp [hp]) h1 h2
      have hrec := ih (Function.update b r0 c0) (t + c0) (s + r0 * c0)
        hnd.2 hupd
      have hr0icc : r0 ∈ Finset.Icc (1 : ℤ) 5 :=
        Finset.mem_Icc.mpr ⟨h0.1, h0.2⟩
      have hb0 : b r0 = 0 := hb (r0, c0) (by simp) h0.1 h0.2
      have hsum : (∑ r in Finset.Icc (1 : ℤ) 5,
            r * ((Function.update b r0 c0 r : ℕ) : ℤ)) =
          (∑ r in Finset.Icc (1 : ℤ) 5, r * ((b r : ℕ) : ℤ)) + r0 * c0 := by
        have hpt : ∀ r ∈ Finset.Icc (1 : ℤ) 5,
            r * ((Function.update b r0 c0 r : ℕ) : ℤ) =
              Function.update (fun x : ℤ => x * ((b x : ℕ) : ℤ)) r0
                (r0 * (c0 : ℤ)) r := by
          intro r _
          by_cases hr : r = r0
          · subst hr; simp
          · simp [Function.update_noteq hr]
        rw [Finset.sum_congr rfl hpt]
        rw [Finset.sum_update_of_mem hr0icc]
        rw [Finset.sdiff_singleton_eq_erase]
        rw [Finset.sum_erase]
        · omega
        · simp [hb0]
      omega
    · exact ih b t s hnd.2 (fun p hp => hb p (by simp [hp]))

theorem length_filter_count (l : List Int) :
    (l.filter (fun r => decide (1 ≤ r ∧ r ≤ 5))).length =
      ∑ r in Finset.Icc (1 : ℤ) 5, l.count r := by
  induction l with
  | nil => simp
  | cons a l ih =>
    rw [List.filter_cons]
    have hcnt : ∀ r ∈ Finset.Icc (1 : ℤ) 5,
        (a :: l).count r = l.count r + if a = r then 1 else 0 := by
      intro r _
      rw [List.count_cons]
      simp
    rw [Finset.sum_congr rfl hcnt, Finset.sum_add_distrib]
    rw [Finset.sum_ite_eq (Finset.Icc (1 : ℤ) 5) a (fun _ => 1)]
    by_cases ha : 1 ≤ a ∧ a ≤ 5
    · rw [if_pos (by simpa using ha)]
      rw [if_pos (Finset.mem_Icc.mpr ⟨ha.1, ha.2⟩)]
      simp only [List.length_cons]
      omega
    · rw [if_neg (by simpa using ha)]
      rw [if_neg (by rw [Finset.mem_Icc]; omega)]
      omega

theorem sum_filter_count (l : List Int) :
    (l.filter (fun r => decide (1 ≤ r ∧ r ≤ 5))).sum =
      ∑ r in Finset.Icc (1 : ℤ) 5, r * (l.count r : ℤ) := by
  induction l with
  | nil => simp
  | cons a l ih =>
    rw [List.filter_cons]
    have hcnt : ∀ r ∈ Finset.Icc (1 : ℤ) 5,
        r * ((a :: l).count r : ℤ) =
          r * (l.count r : ℤ) + if a = r then r else 0 := by
      intro r _
      rw [List.count_cons]
      by_cases h : a = r
      · simp [h]
        ring
      · simp [h, Ne.symm h]
    rw [Finset.sum_congr rfl hcnt, Finset.sum_add_distrib]
    rw [Finset.sum_ite_eq (Finset.Icc (1 : ℤ) 5) a (fun r => r)]
    by_cases ha : 1 ≤ a ∧ a ≤ 5
    · rw [if_pos (by simpa using ha)]
      rw [if_pos (Finset.mem_Icc.mpr ⟨ha.1, ha.2⟩)]
      rw [List.sum_cons, ih]
      omega
    · rw [if_neg (by simpa using ha)]
      rw [if_neg (by rw [Finset.mem_Icc]; omega)]
      omega

theorem pyRound3_zero : pyRound3 0 = 0 := by
  simp only [pyRound3]
  norm_num

/-- When no stored rating matches the book, the summary is all zeros:
`avg = 0.0`, `count = 0`, all histogram buckets `0`. -/
theorem ratings_summary_no_match (db : DB) (bid : Int)
    (h : db.ratings.filter (fun rd => rd.book_id == bid) = []) :
    ratings_summary db bid = ⟨0, 0, fun _ => 0⟩ := by
  unfold ratings_summary
  rw [h]
  simp only [List.map_nil, groupCounts, List.dedup_nil, List.map_nil,
    summaryLoop]
  simp [pyRound3_zero]

/-- **C10.** `GET /books/{book_id}/ratings/summary` performs no existence
check on the book: the dispatcher always answers it with a summary (never a
`NotFound` error), and for a `book_id` with no Book document and no Rating
document the summary is `{avg: 0.0, count: 0}` with all histogram buckets
`0`. -/
theorem claim_C10 (db : DB) (bid : Int) :
    ((∀ b ∈ db.books, b.book_id ≠ bid) →
      (∀ rd ∈ db.ratings, rd.book_id ≠ bid) →
      ratings_summary db bid = ⟨0, 0, fun _ => 0⟩) ∧
    (apply_op db (ApiOp.ratingsSummary bid)).1 =
      ApiResponse.summary (ratings_summary db bid) := by
  constructor
  · intro _hbooks hratings
    apply ratings_summary_no_match
    rw [List.filter_eq_nil_iff]
    intro rd hrd
    simpa using hratings rd hrd
  · rfl

/-- **C10 witness.** Book 77 exists in neither collection of the sample
store; its summary is the all-zero one. -/
theorem claim_C10_witness :
    (∀ b ∈ sampleDB.books, b.book_id ≠ 77) ∧
    (∀ rd ∈ sampleDB.ratings, rd.book_id ≠ 77) ∧
    ratings_summary sampleDB 77 = ⟨0, 0, fun _ => 0⟩ :=
  ⟨by decide, by decide, (claim_C10 sampleDB 77).1 (by decide) (by decide)⟩

/-- **C3.** For any book (unconditionally, so in particular when every
stored rating for it lies in `[1,5]`): the summary satisfies
`sum(histogram.values()) = count` and
`avg = round(sum(rating*count)/count, 3)` (with `0.0` for an empty
summary); grouped rating keys outside `[1,5]` are silently excluded from
the histogram (out-of-range buckets are `0`), from the count (it counts
exactly the in-range matched ratings) and from the sum (the weighted sum
feeding `avg` equals the sum of the in-range matched ratings alone); and
with zero ratings the result is `avg = 0.0, count = 0` and an all-zero
histogram. -/
theorem claim_C3 (db : DB) (book_id : Int) :
    ((∑ r in Finset.Icc (1 : ℤ) 5,
        (ratings_summary db book_id).histogram r) =
      (ratings_summary db book_id).count) ∧
    ((ratings_summary db book_id).avg =
      pyRound3 (if (ratings_summary db book_id).count = 0 then 0 else
        (∑ r in Finset.Icc (1 : ℤ) 5,
          (r : ℚ) * ((ratings_summary db book_id).histogram r : ℚ)) /
        ((ratings_summary db book_id).count : ℚ))) ∧
    (∀ r, ¬(1 ≤ r ∧ r ≤ 5) →
      (ratings_summary db book_id).histogram r = 0) ∧
    ((ratings_summary db book_id).count =
      (((db.ratings.filter (fun rd => rd.book_id == book_id)).map
          (fun rd => rd.rating)).filter
        (fun r => decide (1 ≤ r ∧ r ≤ 5))).length) ∧
    ((∑ r in Finset.Icc (1 : ℤ) 5,
        r * ((ratings_summary db book_id).histogram r : ℤ)) =
      (((db.ratings.filter (fun rd => rd.book_id == book_id)).map
          (fun rd => rd.rating)).filter
        (fun r => decide (1 ≤ r ∧ r ≤ 5))).sum) ∧
    ((∀ rd ∈ db.ratings, rd.book_id ≠ book_id) →
      ratings_summary db book_id = ⟨0, 0, fun _ => 0⟩) := by
  set matched :=
    (db.ratings.filter (fun rd => rd.book_id == book_id)).map
      (fun rd => rd.rating) with hmatched
  have hhist : (ratings_summary db book_id).histogram =
      (summaryLoop (groupCounts matched) (fun _ => 0) 0 0).1 := rfl
  have hcnt : (ratings_summary db book_id).count =
      (summaryLoop (groupCounts matched) (fun _ => 0) 0 0).2.1 := rfl
  have havg : (ratings_summary db book_id).avg =
      pyRound3
        (if (summaryLoop (groupCounts matched) (fun _ => 0) 0 0).2.1 = 0
          then 0
          else ((summaryLoop (groupCounts matched) (fun _ => 0) 0 0).2.2 : ℚ) /
            ((summaryLoop (groupCounts matched) (fun _ => 0) 0 0).2.1 : ℚ)) :=
    rfl
  have hk : (groupCounts matched).map Prod.fst = matched.dedup := by
    simp [groupCounts, List.map_map, Function.comp_def]
  have hnd : ((groupCounts matched).map Prod.fst).Nodup := by
    rw [hk]; exact matched.nodup_dedup
  have hbuck : ∀ r, (ratings_summary db book_id).histogram r =
      if 1 ≤ r ∧ r ≤ 5 then matched.count r else 0 := by
    intro r
    rw [hhist]
    by_cases hr : 1 ≤ r ∧ r ≤ 5
    · rw [if_pos hr]
      by_cases hmem : r ∈ matched
      · have hg : (r, matched.count r) ∈ groupCounts matched := by
          simp only [groupCounts, List.mem_map]
          exact ⟨r, List.mem_dedup.mpr hmem, rfl⟩
        exact summaryLoop_buckets_key _ _ _ _ _ _ hnd hg hr
      · have hn : r ∉ (groupCounts matched).map Prod.fst := by
          rw [hk]
          simpa [List.mem_dedup] using hmem
        rw [summaryLoop_buckets_stable _ _ _ _ _ hn]
        exact (List.count_eq_zero.mpr hmem).symm
    · rw [if_neg hr]
      exact summaryLoop_buckets_out _ _ _ _ _ hr
  have hsum : (∑ r in Finset.Icc (1 : ℤ) 5,
      (ratings_summary db book_id).histogram r) =
      (ratings_summary db book_id).count := by
    have h0 := summaryLoop_sum (groupCounts matched) (fun _ => 0) 0 0 hnd
      (fun p _ _ _ => rfl)
    rw [hhist, hcnt]
    simpa using h0
  have hwsum : (∑ r in Finset.Icc (1 : ℤ) 5,
      r * ((ratings_summary db book_id).histogram r : ℤ)) =
      (summaryLoop (groupCounts matched) (fun _ => 0) 0 0).2.2 := by
    have h0 := summaryLoop_wsum (groupCounts matched) (fun _ => 0) 0 0 hnd
      (fun p _ _ _ => rfl)
    rw [hhist]
    simpa using h0
  refine ⟨hsum, ?_, ?_, ?_, ?_, ?_⟩
  · rw [havg, hcnt]
    by_cases h0 : (summaryLoop (groupCounts matched) (fun _ => 0) 0 0).2.1 = 0
    · rw [if_pos h0, if_pos h0]
    · rw [if_neg h0, if_neg h0]
      congr 1
      rw [← hwsum]
      push_cast
      rfl
  · intro r hr
    rw [hbuck r, if_neg hr]
  · rw [length_filter_count, ← hsum]
    refine Finset.sum_congr rfl ?_
    intro r hrm
    rw [hbuck r, if_pos (Finset.mem_Icc.mp hrm)]
  · rw [sum_filter_count]
    refine Finset.sum_congr rfl ?_
    intro r hrm
    rw [hbuck r, if_pos (Finset.mem_Icc.mp hrm)]
  · intro hnone
    apply ratings_summary_no_match
    rw [List.filter_eq_nil_iff]
    intro rd hrd
    simpa using hnone rd hrd

/-- **C3 witness.** At the sample store: for book 1 (which has stored
ratings 3, 5 and a corrupt 9) the histogram sums to the count and the
weighted sum excludes the out-of-range key; for book 3 (no ratings) the
summary is all zeros. -/
theorem claim_C3_witness :
    ((∑ r in Finset.Icc (1 : ℤ) 5,
        (ratings_summary sampleDB 1).histogram r) =
      (ratings_summary sampleDB 1).count) ∧
    ((∑ r in Finset.Icc (1 : ℤ) 5,
        r * ((ratings_summary sampleDB 1).histogram r : ℤ)) =
      (((sampleDB.ratings.filter (fun rd => rd.book_id == 1)).map
          (fun rd => rd.rating)).filter
        (fun r => decide (1 ≤ r ∧ r ≤ 5))).sum) ∧
    (∀ rd ∈ sampleDB.ratings, rd.book_id ≠ 3) ∧
    ratings_summary sampleDB 3 = ⟨0, 0, fun _ => 0⟩ :=
  ⟨(claim_C3 sampleDB 1).1, (claim_C3 sampleDB 1).2.2.2.2.1, by decide,
   (claim_C3 sampleDB 3).2.2.2.2.2 (by decide)⟩

theorem rowGet_rowSet {r : Row} {col : String}
    (h : (rowGet r col).isSome) (v : Cell) :
    rowGet (rowSet r col v) col = some v := by
  induction r with
  | nil => simp [rowGet] at h
  | cons p ps ih =>
    by_cases hc : (p.1 == col) = true
    · have hrs : rowSet (p :: ps) col v = (p.1, v) :: rowSet ps col v := by
        unfold rowSet
        rw [List.map_cons, if_pos hc]
      rw [hrs]
      simp [rowGet, hc]
    · have hrs : rowSet (p :: ps) col v = p :: rowSet ps col v := by
        unfold rowSet
        rw [List.map_cons, if_neg hc]
      have hget : rowGet (p :: ps) col = rowGet ps col := by
        simp [rowGet, List.find?_cons, hc]
      rw [hrs]
      rw [hget] at h
      have htail := ih h
      simp [rowGet, List.find?_cons, hc] at htail ⊢
      exact htail

/-- **C7 counterexample.** A floating-point (`double`) column value that
fails numeric parsing does NOT cause the row to be excluded: the row is
kept, with the value coerced to NaN. The claim that a parse failure in a
floating-point column drops the row entirely is false (`dropna` is applied
only in the `long` branch of `_coerce_dtypes`). -/
theorem claim_C7_counterexample :
    parseNumeric "abc" = none ∧
    coerce_dtypes
        ⟨["average_rating"], [[("average_rating", Cell.str "abc")]]⟩
        [("average_rating", DType.double)] =
      ⟨["average_rating"], [[("average_rating", Cell.nan)]]⟩ := by
  constructor
  · rfl
  · rfl

/-- **C7 (amended).** Per-column coercion of `_coerce_dtypes`, on rows that
carry the column: an **integer** (`long`) column keeps exactly the rows
whose value parses numerically (a row with an unparseable value is excluded
entirely, not defaulted); a **floating-point** (`double`) column keeps
every row, turning an unparseable value into NaN; a **text** (`string`)
column keeps every row and stringifies the value. (As stated the claim is
false for floating-point columns — see the counterexample.) -/
theorem claim_C7 (rows : List Row) (col : String)
    (hcol : ∀ r ∈ rows, (rowGet r col).isSome) :
    ((coerceCol rows col DType.long).length =
      (rows.filter
        (fun r => ((rowGet r col).bind cellToNumeric).isSome)).length) ∧
    ((coerceCol rows col DType.double).length = rows.length) ∧
    (∀ r ∈ rows, (rowGet r col).bind cellToNumeric = none →
      rowSet r col Cell.nan ∈ coerceCol rows col DType.double) ∧
    ((coerceCol rows col DType.string).length = rows.length) ∧
    (∀ r ∈ rows, ∀ c, rowGet r col = some c →
      rowSet r col (Cell.str (cellToStr c)) ∈
        coerceCol rows col DType.string) := by
  refine ⟨?_, ?_, ?_, ?_, ?_⟩
  · simp only [coerceCol, List.length_map]
    rw [List.filter_map, List.length_map]
    congr 1
    apply List.filter_congr
    intro r hr
    have hget := rowGet_rowSet (hcol r hr) (numCell r col)
    simp only [Function.comp_apply, hget]
    cases hparse : (rowGet r col).bind cellToNumeric with
    | none => simp [numCell, hparse]
    | some q => simp [numCell, hparse]
  · simp [coerceCol]
  · intro r hr hparse
    have hnan : numCell r col = Cell.nan := by
      simp [numCell, hparse]
    have hmem := List.mem_map_of_mem
      (fun r => rowSet r col (numCell r col)) hr
    simp only [hnan] at hmem
    simpa [coerceCol] using hmem
  · simp [coerceCol]
  · intro r hr c hc
    have hmem := List.mem_map_of_mem
      (fun r => match rowGet r col with
        | some c => rowSet r col (Cell.str (cellToStr c))
        | none => r) hr
    simp only [hc] at hmem
    simpa [coerceCol] using hmem

/-- **C7 witness.** A `long` column over two rows, one parseable and one
not: exactly the parseable row survives. -/
theorem claim_C7_witness :
    (∀ r ∈ [[("book_id", Cell.str "12")], [("book_id", Cell.str "abc")]],
      (rowGet r "book_id").isSome) ∧
    (coerceCol [[("book_id", Cell.str "12")], [("book_id", Cell.str "abc")]]
        "book_id" DType.long).length =
      ([[("book_id", Cell.str "12")],
        [("book_id", Cell.str "abc")]].filter
        (fun r => ((rowGet r "book_id").bind cellToNumeric).isSome)).length :=
  ⟨by decide, (claim_C7 _ "book_id" (by decide)).1⟩

end GoodBooks
